import Mathlib

/-!
Shallow embedding of the risk-observation engine from
src/agents/observer_agent.py: the rule catalog and risk classifier
(RiskAnalyzer), the alert policy (AlertManager), the persistence layer
(DatabaseManager, modelled as in-memory append-only relations), and the
orchestrator (ObserverAgent.watch_action) with its bounded in-memory cache
and background cleanup sweep.

Modelling conventions:
- Instants (Python datetime) are seconds since an epoch, as a Nat; the
  hour of an instant is (t / 3600) % 24, mirroring datetime.hour.
- Context values (Python Dict[str, Any] entries actually used by the
  program: int/float, str, bool, datetime) are the inductive Value; a
  context is an association list keyed by strings, read first-match as a
  Python dict.
- Python numbers are modelled as rationals; Python treats bool as an int
  in comparisons, so the rules accept bool where the source compares it.
- A rule predicate that would raise a Python exception (attribute or type
  error on a wrongly-typed context value) is modelled as Except.error;
  RiskAnalyzer.analyze_risk catches every exception per rule.
- json.dumps succeeds on numbers, strings and booleans and raises a
  TypeError on datetime values; it is modelled as an Except-valued
  serializer that errors exactly on Value.time.
- watch_action performs three datetime.now() calls that all happen within
  one call; they are modelled as a single `now` argument. Its sqlite
  side effects are committed in source order (alert insert before the
  observation insert), so the returned State reflects all writes that
  happened before a serialization failure, while the Except result
  carries the raised exception.
-/

abbrev Time := Nat

/-- Hour-of-day of an instant, mirroring Python datetime.hour. -/
def hourOf (t : Time) : Nat := t / 3600 % 24

/-- A context value: Python int/float, str, bool or datetime. -/
inductive Value where
  | num (q : ℚ)
  | str (s : String)
  | bool (b : Bool)
  | time (t : Time)
deriving DecidableEq

/-- A context payload: Dict[str, Any], read first-match like a dict. -/
abbrev Ctx := List (String × Value)

/-- Python truthiness of a context value, as used by
`if rule_func(context):` in RiskAnalyzer.analyze_risk. -/
def truthy : Value → Bool
  | .num q => q ≠ 0
  | .str s => s ≠ ""
  | .bool b => b
  | .time _ => true

/-- ctx.get(k, d): the stored value when the key is present, the default
otherwise. -/
def ctxGet (ctx : Ctx) (k : String) (d : Value) : Value :=
  (List.lookup k ctx).getD d

/-- str.lower(), mapped over the characters. -/
def strLower (s : String) : String := ⟨s.data.map Char.toLower⟩

/-- The in-memory Observation dataclass. -/
structure Observation where
  timestamp : Time
  user : String
  action : String
  context : Ctx
  risk_level : String := "LOW"
  alert_triggered : Bool := false
  processed : Bool := false
deriving DecidableEq

/-- A persisted row of the observations relation; context is the
json.dumps serialization (a TEXT column). -/
structure ObservationRow where
  timestamp : Time
  user : String
  action : String
  context : String
  risk_level : String
  alert_triggered : Bool
  processed : Bool
deriving DecidableEq

/-- A persisted row of the alerts relation. -/
structure AlertRow where
  timestamp : Time
  user : String
  alert_type : String
  message : String
  severity : String
  acknowledged : Bool := false
deriving DecidableEq

/-- The two append-only relations owned by DatabaseManager. -/
structure DB where
  observations : List ObservationRow
  alerts : List AlertRow
deriving DecidableEq

/-- A rule predicate over a context. The Time argument is the wall clock
at evaluation, used only by the unusual_time rule as the fallback for a
missing timestamp key (its lambda calls datetime.now()). An error value
models a raised Python exception. -/
abbrev Rule := Time → Ctx → Except Unit Bool

/-- lambda ctx: ctx.get('amount', 0) > 10000. Comparing a str or
datetime with an int raises in Python; bool compares as 0/1. -/
def highAmountRule : Rule := fun _ ctx =>
  match ctxGet ctx "amount" (.num 0) with
  | .num q => .ok (decide (q > 10000))
  | .bool b => .ok (decide ((if b then (1 : ℚ) else 0) > 10000))
  | _ => .error ()

/-- lambda ctx: ctx.get('country', '').lower() in
['nigeria', 'somalia', 'afghanistan']. Calling .lower() on a non-str
raises. -/
def suspiciousCountryRule : Rule := fun _ ctx =>
  match ctxGet ctx "country" (.str "") with
  | .str s => .ok (decide (strLower s ∈ ["nigeria", "somalia", "afghanistan"]))
  | _ => .error ()

/-- lambda ctx: ctx.get('is_weekend', False); the caller tests the
returned value for truthiness, which never raises. -/
def weekendActivityRule : Rule := fun _ ctx =>
  .ok (truthy (ctxGet ctx "is_weekend" (.bool false)))

/-- lambda ctx: ctx.get('risk_score', 0) > 0.8; the threshold 0.8 is
written as the exact rational 8/10. -/
def highRiskScoreRule : Rule := fun _ ctx =>
  match ctxGet ctx "risk_score" (.num 0) with
  | .num q => .ok (decide (q > mkRat 8 10))
  | .bool b => .ok (decide ((if b then (1 : ℚ) else 0) > mkRat 8 10))
  | _ => .error ()

/-- lambda ctx: ctx.get('attempt_count', 1) > 3. -/
def multipleAttemptsRule : Rule := fun _ ctx =>
  match ctxGet ctx "attempt_count" (.num 1) with
  | .num q => .ok (decide (q > 3))
  | .bool b => .ok (decide ((if b then (1 : ℚ) else 0) > 3))
  | _ => .error ()

/-- RiskAnalyzer._is_unusual_time: hour >= 23 or hour <= 6. -/
def isUnusualTime (t : Time) : Bool :=
  hourOf t ≥ 23 || hourOf t ≤ 6

/-- lambda ctx: self._is_unusual_time(ctx.get('timestamp',
datetime.now())). Reading .hour of a non-datetime raises. -/
def unusualTimeRule : Rule := fun now ctx =>
  match ctxGet ctx "timestamp" (.time now) with
  | .time t => .ok (isUnusualTime t)
  | _ => .error ()

/-- RiskAnalyzer.risk_rules, in declaration (dict insertion) order. -/
def riskRules : List (String × Rule) :=
  [ ("high_amount", highAmountRule)
  , ("suspicious_country", suspiciousCountryRule)
  , ("weekend_activity", weekendActivityRule)
  , ("high_risk_score", highRiskScoreRule)
  , ("multiple_attempts", multipleAttemptsRule)
  , ("unusual_time", unusualTimeRule) ]

/-- The rule-name collection loop of RiskAnalyzer.analyze_risk: a rule is
collected when its predicate returns a truthy value; an exception is
caught and the rule skipped. -/
def triggeredRules (now : Time) (ctx : Ctx) : List String :=
  riskRules.filterMap fun p =>
    match p.2 now ctx with
    | .ok true => some p.1
    | _ => none

/-- RiskAnalyzer.analyze_risk: count the triggered rules and map the
count to a risk level through the fixed cascade. -/
def analyzeRisk (now : Time) (ctx : Ctx) : String × List String :=
  let triggered := triggeredRules now ctx
  if triggered.length ≥ 3 then ("CRITICAL", triggered)
  else if triggered.length ≥ 2 then ("HIGH", triggered)
  else if triggered.length ≥ 1 then ("MEDIUM", triggered)
  else ("LOW", triggered)

/-- json.dumps of a single context value: numbers, strings and booleans
serialize; a datetime raises TypeError. -/
def jsonValue : Value → Except Unit String
  | .num q => .ok (toString q)
  | .str s => .ok ("\"" ++ s ++ "\"")
  | .bool b => .ok (if b then "true" else "false")
  | .time _ => .error ()

/-- json.dumps of a whole context: serializes every value or raises on
the first non-serializable one. -/
def jsonDumps (ctx : Ctx) : Except Unit String := do
  let fields ← ctx.mapM fun p => do
    let v ← jsonValue p.2
    pure ("\"" ++ p.1 ++ "\": " ++ v)
  pure ("\x7b" ++ String.intercalate ", " fields ++ "\x7d")

/-- AlertManager.alert_thresholds as constructed by __init__. -/
def defaultThresholds : List (String × Nat) :=
  [("CRITICAL", 0), ("HIGH", 1), ("MEDIUM", 3), ("LOW", 10)]

/-- AlertManager.should_alert: looks the threshold up (and never uses
it), returns True for CRITICAL and True for every other level as well
(the frequency check is stubbed for the demo). -/
def shouldAlert (thresholds : List (String × Nat)) (obs : Observation) : Bool :=
  let _threshold := ((List.lookup obs.risk_level thresholds).getD 5)
  if obs.risk_level = "CRITICAL" then true
  else true

/-- AlertManager.create_alert: the alert row inserted into the alerts
relation. -/
def mkAlert (now : Time) (obs : Observation) (triggered : List String) : AlertRow :=
  { timestamp := now
  , user := obs.user
  , alert_type := obs.action
  , message := "Risk detected for user " ++ obs.user ++ ": " ++
      String.intercalate ", " triggered
  , severity := obs.risk_level
  , acknowledged := false }

/-- The mutable state of one ObserverAgent instance plus its injected
DatabaseManager and AlertManager configuration. -/
structure State where
  db : DB
  cache : List Observation
  stats : String → Nat
  alertThresholds : List (String × Nat)

/-- ObserverAgent.__init__: empty relations, empty cache, zeroed
defaultdict stats, the default thresholds. -/
def initState : State :=
  { db := { observations := [], alerts := [] }
  , cache := []
  , stats := fun _ => 0
  , alertThresholds := defaultThresholds }

/-- defaultdict increment stats[k] += 1. -/
def bump (f : String → Nat) (k : String) : String → Nat :=
  fun x => if x = k then f x + 1 else f x

/-- The stats-update block of watch_action. -/
def bumpStats (stats : String → Nat) (level : String) (alerted : Bool) :
    String → Nat :=
  let s1 := bump stats "total_observations"
  let s2 := bump s1 ("risk_" ++ strLower level)
  if alerted then bump s2 "total_alerts" else s2

/-- The cache-update block of watch_action: append, then pop the head
when the length exceeds 1000. -/
def cacheAppend (cache : List Observation) (obs : Observation) :
    List Observation :=
  let l := cache ++ [obs]
  if l.length > 1000 then l.tail else l

/-- The Observation value watch_action returns: built with the
classified risk level, then alert_triggered set by the alert policy
before any write. -/
def watchObservation (thr : List (String × Nat)) (user action : String)
    (ctx : Ctx) (now : Time) : Observation :=
  let rt := analyzeRisk now ctx
  let obs : Observation :=
    { timestamp := now, user := user, action := action, context := ctx
    , risk_level := rt.1, alert_triggered := false, processed := false }
  if shouldAlert thr obs then { obs with alert_triggered := true } else obs

/-- ObserverAgent.watch_action. Classify, build the Observation, decide
and persist the alert, persist the observation (raising if json.dumps
raises, with the already-committed alert insert retained), update the
cache and the stats. The Except result is the returned Observation or
the propagated exception. -/
def watchAction (s : State) (user action : String) (ctx : Ctx) (now : Time) :
    Except Unit Observation × State :=
  let rt := analyzeRisk now ctx
  let obs0 : Observation :=
    { timestamp := now, user := user, action := action, context := ctx
    , risk_level := rt.1, alert_triggered := false, processed := false }
  let doAlert := shouldAlert s.alertThresholds obs0
  let obs := if doAlert then { obs0 with alert_triggered := true } else obs0
  let alerts :=
    if doAlert then s.db.alerts ++ [mkAlert now obs rt.2] else s.db.alerts
  match jsonDumps ctx with
  | .error e => (.error e, { s with db := { s.db with alerts := alerts } })
  | .ok blob =>
      let row : ObservationRow :=
        { timestamp := obs.timestamp, user := obs.user, action := obs.action
        , context := blob, risk_level := obs.risk_level
        , alert_triggered := obs.alert_triggered, processed := obs.processed }
      ( .ok obs
      , { db := { observations := s.db.observations ++ [row], alerts := alerts }
        , cache := cacheAppend s.cache obs
        , stats := bumpStats s.stats rt.1 obs.alert_triggered
        , alertThresholds := s.alertThresholds } )

/-- DatabaseManager.get_observations: rows ordered most-recent-first,
bounded by the limit. Insertion into a descending-by-timestamp list. -/
def insertDesc (r : ObservationRow) : List ObservationRow → List ObservationRow
  | [] => [r]
  | x :: xs => if x.timestamp < r.timestamp then r :: x :: xs
               else x :: insertDesc r xs

/-- ORDER BY timestamp DESC over the observations relation. -/
def sortDesc (l : List ObservationRow) : List ObservationRow :=
  l.foldr insertDesc []

/-- DatabaseManager.get_observations: SELECT ... ORDER BY timestamp DESC
LIMIT ?. The context field of each returned row is the stored TEXT blob;
no deserialization happens on the read path. -/
def getObservations (db : DB) (limit : Nat) : List ObservationRow :=
  (sortDesc db.observations).take limit

/-- ObserverAgent._cleanup_old_observations: drop cache entries older
than 7 days; the durable relations are untouched. -/
def cleanupOldObservations (now : Time) (s : State) : State :=
  let cutoff := now - 7 * 24 * 3600
  { s with cache := s.cache.filter fun o => cutoff ≤ o.timestamp }

/-- One input to watch_action, for reasoning about call sequences. -/
structure WatchInput where
  user : String
  action : String
  ctx : Ctx
  now : Time

/-- A sequence of watch_action calls against one engine instance. -/
def runWatches (inputs : List WatchInput) (s : State) : State :=
  inputs.foldl (fun st i => (watchAction st i.user i.action i.ctx i.now).2) s

/-! ## Helper lemmas -/

lemma analyzeRisk_snd (now : Time) (ctx : Ctx) :
    (analyzeRisk now ctx).2 = triggeredRules now ctx := by
  unfold analyzeRisk
  dsimp only
  split_ifs <;> rfl

lemma analyzeRisk_fst_critical (now : Time) (ctx : Ctx)
    (h : 3 ≤ (triggeredRules now ctx).length) :
    (analyzeRisk now ctx).1 = "CRITICAL" := by
  unfold analyzeRisk
  dsimp only
  split_ifs with h1 <;> simp_all

lemma analyzeRisk_fst_high (now : Time) (ctx : Ctx)
    (h : (triggeredRules now ctx).length = 2) :
    (analyzeRisk now ctx).1 = "HIGH" := by
  unfold analyzeRisk
  dsimp only
  split_ifs with h1 h2 <;> simp_all

lemma analyzeRisk_fst_low (now : Time) (ctx : Ctx)
    (h : (triggeredRules now ctx).length = 0) :
    (analyzeRisk now ctx).1 = "LOW" := by
  unfold analyzeRisk
  dsimp only
  split_ifs with h1 h2 h3 <;> simp_all

lemma shouldAlert_true (thr : List (String × Nat)) (obs : Observation) :
    shouldAlert thr obs = true := by
  unfold shouldAlert
  split_ifs <;> rfl

lemma trig_sublist (now : Time) (ctx : Ctx) :
    ∀ l : List (String × Rule),
      (l.filterMap fun p =>
        match p.2 now ctx with
        | .ok true => some p.1
        | _ => none).Sublist (l.map Prod.fst)
  | [] => by simp
  | p :: l => by
    rw [List.filterMap_cons, List.map_cons]
    cases h : p.2 now ctx with
    | error e => simpa [h] using (trig_sublist now ctx l).cons p.1
    | ok b =>
      cases b with
      | false => simpa [h] using (trig_sublist now ctx l).cons p.1
      | true => simpa [h] using (trig_sublist now ctx l).cons₂ p.1

lemma mem_triggeredRules (now : Time) (ctx : Ctx) (n : String) :
    n ∈ triggeredRules now ctx ↔
      ∃ r, (n, r) ∈ riskRules ∧ r now ctx = .ok true := by
  unfold triggeredRules
  rw [List.mem_filterMap]
  constructor
  · rintro ⟨⟨nm, r⟩, hp, hf⟩
    dsimp at hf
    cases h : r now ctx with
    | error e => rw [h] at hf; cases hf
    | ok b =>
      cases b with
      | false => rw [h] at hf; cases hf
      | true =>
        rw [h] at hf
        cases hf
        exact ⟨r, hp, h⟩
  · rintro ⟨r, hp, hr⟩
    exact ⟨(n, r), hp, by simp [hr]⟩

lemma riskRules_keys_nodup : (riskRules.map Prod.fst).Nodup := by
  simp [riskRules]

lemma eq_of_mem_nodup_keys :
    ∀ {l : List (String × Rule)}, (l.map Prod.fst).Nodup →
      ∀ {a : String} {b c : Rule}, (a, b) ∈ l → (a, c) ∈ l → b = c := by
  intro l
  induction l with
  | nil => intro _ a b c hb; cases hb
  | cons p l ih =>
    intro hnd a b c hb hc
    rw [List.map_cons, List.nodup_cons] at hnd
    rcases List.mem_cons.mp hb with hb1 | hb2 <;>
      rcases List.mem_cons.mp hc with hc1 | hc2
    · rw [← hb1] at hc1
      exact ((Prod.ext_iff.mp hc1).2).symm
    · exfalso
      have ha : p.1 = a := by rw [← hb1]
      apply hnd.1
      rw [ha]
      exact List.mem_map_of_mem Prod.fst hc2
    · exfalso
      have ha : p.1 = a := by rw [← hc1]
      apply hnd.1
      rw [ha]
      exact List.mem_map_of_mem Prod.fst hb2
    · exact ih hnd.2 hb2 hc2

/-! ## C1 -/

/-- Claim C1: analyze_risk classifies LOW exactly when 0 rules trigger,
MEDIUM exactly when 1 triggers, HIGH exactly when 2 trigger and CRITICAL
exactly when 3 or more trigger, and the triggered-rule names come back as
a subsequence of the catalog in declaration order. -/
theorem analyzeRisk_level_table (now : Time) (ctx : Ctx) :
    ((analyzeRisk now ctx).1 = "LOW" ↔ (analyzeRisk now ctx).2.length = 0)
    ∧ ((analyzeRisk now ctx).1 = "MEDIUM" ↔ (analyzeRisk now ctx).2.length = 1)
    ∧ ((analyzeRisk now ctx).1 = "HIGH" ↔ (analyzeRisk now ctx).2.length = 2)
    ∧ ((analyzeRisk now ctx).1 = "CRITICAL" ↔ 3 ≤ (analyzeRisk now ctx).2.length)
    ∧ (analyzeRisk now ctx).2.Sublist (riskRules.map Prod.fst) := by
  have hs := analyzeRisk_snd now ctx
  refine ⟨?_, ?_, ?_, ?_, ?_⟩
  · rw [hs]
    unfold analyzeRisk
    dsimp only
    split_ifs with h1 h2 h3 <;> dsimp only <;> constructor <;> intro h <;>
      first
        | rfl
        | omega
        | exact absurd h (by decide)
        | (exfalso; omega)
  · rw [hs]
    unfold analyzeRisk
    dsimp only
    split_ifs with h1 h2 h3 <;> dsimp only <;> constructor <;> intro h <;>
      first
        | rfl
        | omega
        | exact absurd h (by decide)
        | (exfalso; omega)
  · rw [hs]
    unfold analyzeRisk
    dsimp only
    split_ifs with h1 h2 h3 <;> dsimp only <;> constructor <;> intro h <;>
      first
        | rfl
        | omega
        | exact absurd h (by decide)
        | (exfalso; omega)
  · rw [hs]
    unfold analyzeRisk
    dsimp only
    split_ifs with h1 h2 h3 <;> dsimp only <;> constructor <;> intro h <;>
      first
        | rfl
        | omega
        | exact absurd h (by decide)
        | (exfalso; omega)
  · rw [hs]
    exact trig_sublist now ctx riskRules

/-! ## C4 -/

/-- Claim C4: a rule whose predicate raises is treated as not triggered
for that call — its name is absent from the returned list — and
classification still completes over all remaining rules: the returned
list holds exactly the names of the rules whose predicate returned a
truthy value. -/
theorem analyzeRisk_error_isolated (now : Time) (ctx : Ctx)
    (name : String) (rule : Rule)
    (hmem : (name, rule) ∈ riskRules) (herr : rule now ctx = .error ()) :
    name ∉ (analyzeRisk now ctx).2
    ∧ ∀ n, n ∈ (analyzeRisk now ctx).2 ↔
        ∃ r, (n, r) ∈ riskRules ∧ r now ctx = .ok true := by
  rw [analyzeRisk_snd]
  constructor
  · intro hin
    rw [mem_triggeredRules] at hin
    obtain ⟨r, hr, hok⟩ := hin
    have hrr : r = rule := eq_of_mem_nodup_keys riskRules_keys_nodup hr hmem
    rw [hrr, herr] at hok
    cases hok
  · intro n
    exact mem_triggeredRules now ctx n

/-- A context whose amount value is a string: comparing it with an int
raises in the high_amount predicate. -/
def ctxBadAmount : Ctx := [("amount", .str "a lot")]

/-- Witness for C4 at a concrete erroring rule and context. -/
theorem analyzeRisk_error_isolated_witness :
    (("high_amount", highAmountRule) ∈ riskRules
      ∧ highAmountRule 0 ctxBadAmount = .error ())
    ∧ "high_amount" ∉ (analyzeRisk 0 ctxBadAmount).2 := by
  refine ⟨⟨by simp [riskRules], rfl⟩, ?_⟩
  exact (analyzeRisk_error_isolated 0 ctxBadAmount "high_amount" highAmountRule
    (by simp [riskRules]) rfl).1

/-! ## C8 -/

/-- Claim C8 counterexample: the classifier is not a function of the
context alone. On a context without a timestamp key, the unusual_time
rule falls back to datetime.now(), so the identical empty context
classifies LOW at 12:00 and MEDIUM at 23:00. -/
theorem analyzeRisk_depends_on_clock :
    analyzeRisk 43200 [] ≠ analyzeRisk 82800 [] := by
  have h1 : analyzeRisk 43200 [] = ("LOW", []) := rfl
  have h2 : analyzeRisk 82800 [] = ("MEDIUM", ["unusual_time"]) := rfl
  rw [h1, h2]
  simp

/-- Claim C8 as amended: classification is deterministic in the pair
(context, current time); whenever the context itself carries a timestamp
key, the result does not depend on the clock at all, so two calls with
that identical context agree. -/
theorem analyzeRisk_deterministic_with_timestamp (now1 now2 : Time)
    (ctx : Ctx) (v : Value)
    (hts : List.lookup "timestamp" ctx = some v) :
    analyzeRisk now1 ctx = analyzeRisk now2 ctx := by
  have ht : ∀ now : Time, ctxGet ctx "timestamp" (.time now) = v := by
    intro now
    unfold ctxGet
    rw [hts]
    rfl
  have hu : unusualTimeRule now1 ctx = unusualTimeRule now2 ctx := by
    unfold unusualTimeRule
    rw [ht now1, ht now2]
  have h1 : highAmountRule now1 ctx = highAmountRule now2 ctx := rfl
  have h2 : suspiciousCountryRule now1 ctx = suspiciousCountryRule now2 ctx := rfl
  have h3 : weekendActivityRule now1 ctx = weekendActivityRule now2 ctx := rfl
  have h4 : highRiskScoreRule now1 ctx = highRiskScoreRule now2 ctx := rfl
  have h5 : multipleAttemptsRule now1 ctx = multipleAttemptsRule now2 ctx := rfl
  have hr : triggeredRules now1 ctx = triggeredRules now2 ctx := by
    unfold triggeredRules riskRules
    simp only [List.filterMap_cons, List.filterMap_nil]
    rw [h1, h2, h3, h4, h5, hu]
  unfold analyzeRisk
  dsimp only
  rw [hr]

/-- Witness for C8 as amended at a concrete timestamp-carrying context. -/
theorem analyzeRisk_deterministic_with_timestamp_witness :
    List.lookup "timestamp" [("timestamp", Value.time 0)] = some (Value.time 0)
    ∧ analyzeRisk 43200 [("timestamp", Value.time 0)]
        = analyzeRisk 82800 [("timestamp", Value.time 0)] :=
  ⟨rfl, analyzeRisk_deterministic_with_timestamp 43200 82800 _ _ rfl⟩

/-! ## C3 -/

/-- Claim C3 counterexample: on a context triggering zero rules the
classifier does return LOW, but should_alert is stubbed to always return
True, so watch_action sets alert_triggered and persists an Alert even
for a LOW observation. -/
theorem watchAction_low_alerts_anyway :
    ((watchAction initState "Bob" "login_attempt" [] 43200).1.toOption.map
        fun o => (o.risk_level, o.alert_triggered)) = some ("LOW", true)
    ∧ ((watchAction initState "Bob" "login_attempt" [] 43200).2.db.alerts.map
        fun a => a.severity) = ["LOW"] :=
  ⟨rfl, rfl⟩

/-- Claim C3 as amended: for every context with zero triggered rules
(and a serializable context, so the call returns), watch_action returns
an Observation with risk_level LOW, but — the alert policy being stubbed
to always alert — with alert_triggered true, and exactly one Alert with
severity LOW is persisted. -/
theorem watchAction_zero_rules_low (s : State) (user action : String)
    (ctx : Ctx) (now : Time)
    (h0 : (analyzeRisk now ctx).2.length = 0)
    (hser : (jsonDumps ctx).isOk = true) :
    ((watchAction s user action ctx now).1.toOption.map
        fun o => (o.risk_level, o.alert_triggered)) = some ("LOW", true)
    ∧ ((watchAction s user action ctx now).2.db.alerts.map fun a => a.severity)
        = (s.db.alerts.map fun a => a.severity) ++ ["LOW"] := by
  rw [analyzeRisk_snd] at h0
  have hlow := analyzeRisk_fst_low now ctx h0
  cases hj : jsonDumps ctx with
  | error e => rw [hj] at hser; simp [Except.isOk, Except.toBool] at hser
  | ok blob =>
    unfold watchAction
    dsimp only
    rw [hj]
    simp [shouldAlert_true, hlow, Except.toOption, mkAlert]

/-- Witness for C3 as amended at the empty context and 12:00. -/
theorem watchAction_zero_rules_low_witness :
    ((analyzeRisk 43200 []).2.length = 0 ∧ (jsonDumps []).isOk = true)
    ∧ ((watchAction initState "Ann" "password_reset" [] 43200).1.toOption.map
          fun o => (o.risk_level, o.alert_triggered)) = some ("LOW", true)
    ∧ ((watchAction initState "Ann" "password_reset" [] 43200).2.db.alerts.map
          fun a => a.severity)
        = (initState.db.alerts.map fun a => a.severity) ++ ["LOW"] :=
  ⟨⟨rfl, rfl⟩, watchAction_zero_rules_low initState "Ann" "password_reset" [] 43200 rfl rfl⟩

/-! ## C2 -/

/-- A context with three truthy rule values and a datetime value: rule
evaluation yields at least three triggered rules, and json.dumps raises
on the datetime. -/
def ctxCriticalBad : Ctx :=
  [ ("amount", .num 20000), ("country", .str "nigeria")
  , ("is_weekend", .bool true), ("timestamp", .time 0) ]

/-- Claim C2 counterexample: a context with three or more triggered
rules on which watch_action does not return an Observation at all — its
datetime value makes json.dumps raise while persisting the observation,
so the call raises instead of returning. -/
theorem watchAction_critical_raises_on_datetime :
    3 ≤ (analyzeRisk 43200 ctxCriticalBad).2.length
    ∧ (watchAction initState "Eve" "wire_transfer" ctxCriticalBad 43200).1
        = .error () := by
  constructor
  · show 3 ≤ (analyzeRisk 43200 ctxCriticalBad).2.length
    have h : (analyzeRisk 43200 ctxCriticalBad).2.length = 4 := rfl
    omega
  · rfl

/-- Claim C2 as amended: for every context with at least three triggered
rules whose serialization succeeds, watch_action returns an Observation
with risk_level CRITICAL and alert_triggered true and persists exactly
one Alert with severity CRITICAL — for every threshold configuration,
since the state (and so the threshold table) is universally quantified. -/
theorem watchAction_critical_alerts (s : State) (user action : String)
    (ctx : Ctx) (now : Time)
    (h3 : 3 ≤ (analyzeRisk now ctx).2.length)
    (hser : (jsonDumps ctx).isOk = true) :
    ((watchAction s user action ctx now).1.toOption.map
        fun o => (o.risk_level, o.alert_triggered)) = some ("CRITICAL", true)
    ∧ ((watchAction s user action ctx now).2.db.alerts.map fun a => a.severity)
        = (s.db.alerts.map fun a => a.severity) ++ ["CRITICAL"] := by
  rw [analyzeRisk_snd] at h3
  have hcrit := analyzeRisk_fst_critical now ctx h3
  cases hj : jsonDumps ctx with
  | error e => rw [hj] at hser; simp [Except.isOk, Except.toBool] at hser
  | ok blob =>
    unfold watchAction
    dsimp only
    rw [hj]
    simp [shouldAlert_true, hcrit, Except.toOption, mkAlert]

/-- A serializable context with exactly three truthy rule values. -/
def ctxCriticalOk : Ctx :=
  [ ("amount", .num 20000), ("country", .str "nigeria")
  , ("is_weekend", .bool true) ]

/-- Witness for C2 as amended at a concrete three-trigger context. -/
theorem watchAction_critical_alerts_witness :
    (3 ≤ (analyzeRisk 43200 ctxCriticalOk).2.length
      ∧ (jsonDumps ctxCriticalOk).isOk = true)
    ∧ ((watchAction initState "Eve" "wire_transfer" ctxCriticalOk 43200).1.toOption.map
          fun o => (o.risk_level, o.alert_triggered)) = some ("CRITICAL", true)
    ∧ ((watchAction initState "Eve" "wire_transfer" ctxCriticalOk 43200).2.db.alerts.map
          fun a => a.severity)
        = (initState.db.alerts.map fun a => a.severity) ++ ["CRITICAL"] := by
  refine ⟨⟨?_, rfl⟩, ?_⟩
  · have h : (analyzeRisk 43200 ctxCriticalOk).2.length = 3 := rfl
    omega
  · exact watchAction_critical_alerts initState "Eve" "wire_transfer" ctxCriticalOk 43200
      (by have h : (analyzeRisk 43200 ctxCriticalOk).2.length = 3 := rfl; omega) rfl

/-! ## C5 -/

/-- Claim C5 counterexample: a call with empty actor and action strings
is not rejected — no validation exists in watch_action — and it persists
an observation row. -/
theorem watchAction_empty_actor_persists :
    ((watchAction initState "" "" [] 43200).1.toOption.map
        fun o => (o.user, o.action)) = some ("", "")
    ∧ (watchAction initState "" "" [] 43200).2.db.observations.length = 1 :=
  ⟨rfl, rfl⟩

/-- Claim C5 as amended: watch_action performs no validation of the
actor or action strings; a call with any strings — the empty string
included — proceeds normally and appends exactly one observation row. -/
theorem watchAction_no_validation (user action : String) (s : State) (now : Time) :
    ((watchAction s user action [] now).1.toOption.map
        fun o => (o.user, o.action)) = some (user, action)
    ∧ (watchAction s user action [] now).2.db.observations.length
        = s.db.observations.length + 1 := by
  have hj : jsonDumps ([] : Ctx) = .ok "\x7b\x7d" := rfl
  unfold watchAction
  dsimp only
  rw [hj]
  simp [shouldAlert_true, Except.toOption]

/-! ## C7 -/

/-- Claim C7: one run of the cleanup sweep keeps exactly the cached
observations whose timestamp lies within the 7-day horizon of the
current time, in their original order (the surviving cache is a
subsequence of the old one), and leaves the durable relations, the stats
and the threshold table untouched. -/
theorem cleanup_filters_cache_only (now : Time) (s : State) :
    (∀ o, o ∈ (cleanupOldObservations now s).cache ↔
        o ∈ s.cache ∧ now - 7 * 24 * 3600 ≤ o.timestamp)
    ∧ (cleanupOldObservations now s).cache.Sublist s.cache
    ∧ (cleanupOldObservations now s).db = s.db
    ∧ (cleanupOldObservations now s).stats = s.stats
    ∧ (cleanupOldObservations now s).alertThresholds = s.alertThresholds := by
  unfold cleanupOldObservations
  dsimp only
  refine ⟨?_, ?_, rfl, rfl, rfl⟩
  · intro o
    simp [List.mem_filter]
  · exact List.filter_sublist s.cache

/-! ## C9 -/

/-- A context holding a datetime value, as every context built by the
gradio submit handler and the demo simulator does. -/
def ctxWithDatetime : Ctx := [("amount", .num 2500), ("timestamp", .time 0)]

/-- Claim C9 (code bug): save_observation serializes the context with
json.dumps, which raises TypeError on the datetime values the engine's
own callers put into every context; the call raises, no observation row
is ever written, and nothing can be read back — the round-trip does not
even start. (For contexts that do serialize, get_observations returns
the raw TEXT blob without parsing it back into a mapping.) -/
theorem watchAction_datetime_context_raises :
    (watchAction initState "Alice" "data_download" ctxWithDatetime 43200).1
      = .error ()
    ∧ (watchAction initState "Alice" "data_download" ctxWithDatetime 43200).2.db.observations
      = []
    ∧ getObservations
        (watchAction initState "Alice" "data_download" ctxWithDatetime 43200).2.db 100
      = [] :=
  ⟨rfl, rfl, rfl⟩

/-! ## C10 -/

/-- The context of the Priya scenario from the spec. 0.92 is the exact
rational 92/100. -/
def ctxPriya : Ctx :=
  [ ("amount", .num 9500), ("country", .str "india")
  , ("is_weekend", .bool true), ("risk_score", .num (mkRat 92 100))
  , ("attempt_count", .num 1) ]

lemma ctxPriya_triggered (now : Time)
    (h7 : 7 ≤ hourOf now) (h22 : hourOf now ≤ 22) :
    triggeredRules now ctxPriya = ["weekend_activity", "high_risk_score"] := by
  have e1 : highAmountRule now ctxPriya = .ok false := rfl
  have e2 : suspiciousCountryRule now ctxPriya = .ok false := rfl
  have e3 : weekendActivityRule now ctxPriya = .ok true := rfl
  have e4 : highRiskScoreRule now ctxPriya = .ok true := rfl
  have e5 : multipleAttemptsRule now ctxPriya = .ok false := rfl
  have e6 : unusualTimeRule now ctxPriya = .ok (isUnusualTime now) := rfl
  have hu : isUnusualTime now = false := by
    simp only [isUnusualTime, Bool.or_eq_false_iff, decide_eq_false_iff_not, not_le]
    omega
  unfold triggeredRules riskRules
  simp only [List.filterMap_cons, List.filterMap_nil]
  rw [e1, e2, e3, e4, e5, e6, hu]

lemma analyzeRisk_priya (now : Time)
    (h7 : 7 ≤ hourOf now) (h22 : hourOf now ≤ 22) :
    analyzeRisk now ctxPriya = ("HIGH", ["weekend_activity", "high_risk_score"]) := by
  have ht := ctxPriya_triggered now h7 h22
  unfold analyzeRisk
  dsimp only
  rw [ht]
  simp

/-- Claim C10 counterexample: the Priya call is not always HIGH with two
triggered rules; when it happens at 23:00 the unusual_time rule (falling
back to the current clock, since the scenario context has no timestamp
key) also triggers, giving three rules and CRITICAL. -/
theorem watch_priya_at_night_critical :
    ((watchAction initState "Priya" "flagged_transaction" ctxPriya 82800).1.toOption.map
        fun o => (o.risk_level, o.alert_triggered)) = some ("CRITICAL", true)
    ∧ (analyzeRisk 82800 ctxPriya).2
        = ["weekend_activity", "high_risk_score", "unusual_time"] :=
  ⟨rfl, rfl⟩

/-- Claim C10 as amended: whenever the call happens at an hour between
07:00 and 22:59 — so that unusual_time, which reads the current clock
because the scenario context has no timestamp key, does not trigger —
the Priya call triggers exactly weekend_activity and high_risk_score,
returns an Observation with risk_level HIGH and alert_triggered true,
and persists exactly one Alert with severity HIGH. -/
theorem watch_priya_daytime_high (s : State) (now : Time)
    (h7 : 7 ≤ hourOf now) (h22 : hourOf now ≤ 22) :
    (analyzeRisk now ctxPriya).2 = ["weekend_activity", "high_risk_score"]
    ∧ ((watchAction s "Priya" "flagged_transaction" ctxPriya now).1.toOption.map
        fun o => (o.risk_level, o.alert_triggered)) = some ("HIGH", true)
    ∧ ((watchAction s "Priya" "flagged_transaction" ctxPriya now).2.db.alerts.map
        fun a => a.severity)
      = (s.db.alerts.map fun a => a.severity) ++ ["HIGH"] := by
  have ha := analyzeRisk_priya now h7 h22
  have hex : ∃ b, jsonDumps ctxPriya = .ok b := ⟨_, rfl⟩
  obtain ⟨b, hj⟩ := hex
  refine ⟨by rw [ha], ?_, ?_⟩ <;>
    (unfold watchAction; dsimp only; rw [hj];
     simp [shouldAlert_true, ha, mkAlert, Except.toOption])

/-- Witness for C10 as amended at noon. -/
theorem watch_priya_daytime_high_witness :
    (7 ≤ hourOf 43200 ∧ hourOf 43200 ≤ 22)
    ∧ (analyzeRisk 43200 ctxPriya).2 = ["weekend_activity", "high_risk_score"]
    ∧ ((watchAction initState "Priya" "flagged_transaction" ctxPriya 43200).1.toOption.map
        fun o => (o.risk_level, o.alert_triggered)) = some ("HIGH", true)
    ∧ ((watchAction initState "Priya" "flagged_transaction" ctxPriya 43200).2.db.alerts.map
        fun a => a.severity)
      = (initState.db.alerts.map fun a => a.severity) ++ ["HIGH"] :=
  ⟨⟨by decide, by decide⟩,
    watch_priya_daytime_high initState 43200 (by decide) (by decide)⟩

/-! ## C6 -/

lemma watchObservation_timestamp (thr : List (String × Nat))
    (u a : String) (ctx : Ctx) (now : Time) :
    (watchObservation thr u a ctx now).timestamp = now := by
  unfold watchObservation
  dsimp only
  split_ifs <;> rfl

lemma cacheAppend_length_le (c : List Observation) (o : Observation)
    (h : c.length ≤ 1000) : (cacheAppend c o).length ≤ 1000 := by
  unfold cacheAppend
  dsimp only
  split_ifs with hl
  · rw [List.length_tail]
    simp only [List.length_append, List.length_singleton]
    omega
  · simp only [List.length_append, List.length_singleton] at hl ⊢
    omega

lemma watchAction_thresholds (s : State) (u a : String) (ctx : Ctx) (now : Time) :
    (watchAction s u a ctx now).2.alertThresholds = s.alertThresholds := by
  unfold watchAction
  dsimp only
  rcases hj : jsonDumps ctx with e | b <;> rfl

lemma watchAction_cache_ok (s : State) (u a : String) (ctx : Ctx) (now : Time)
    (b : String) (hj : jsonDumps ctx = .ok b) :
    (watchAction s u a ctx now).2.cache
      = cacheAppend s.cache (watchObservation s.alertThresholds u a ctx now) := by
  unfold watchAction watchObservation
  dsimp only
  rw [hj]

lemma watchAction_cache_le (s : State) (u a : String) (ctx : Ctx) (now : Time)
    (h : s.cache.length ≤ 1000) :
    (watchAction s u a ctx now).2.cache.length ≤ 1000 := by
  rcases hj : jsonDumps ctx with e | b
  · unfold watchAction
    dsimp only
    rw [hj]
    exact h
  · rw [watchAction_cache_ok s u a ctx now b hj]
    exact cacheAppend_length_le _ _ h

lemma runWatches_cons (i : WatchInput) (is : List WatchInput) (s : State) :
    runWatches (i :: is) s
      = runWatches is (watchAction s i.user i.action i.ctx i.now).2 := rfl

lemma runWatches_cache_le (inputs : List WatchInput) :
    ∀ s : State, s.cache.length ≤ 1000 →
      (runWatches inputs s).cache.length ≤ 1000 := by
  induction inputs with
  | nil => intro s h; exact h
  | cons i is ih =>
    intro s h
    rw [runWatches_cons]
    exact ih _ (watchAction_cache_le s i.user i.action i.ctx i.now h)

lemma foldl_cacheAppend_drop :
    ∀ (os : List Observation) (c : List Observation), c.length ≤ 1000 →
      os.foldl cacheAppend c = (c ++ os).drop (c.length + os.length - 1000) := by
  intro os
  induction os with
  | nil =>
    intro c h
    simp only [List.foldl_nil, List.append_nil, List.length_nil, Nat.add_zero]
    have hz : c.length - 1000 = 0 := by omega
    rw [hz, List.drop_zero]
  | cons o os ih =>
    intro c h
    rw [List.foldl_cons]
    by_cases hc : c.length = 1000
    · have hfull : (c ++ [o]).length > 1000 := by
        simp only [List.length_append, List.length_singleton]
        omega
      have hstep : cacheAppend c o = (c ++ [o]).tail := by
        unfold cacheAppend
        dsimp only
        rw [if_pos hfull]
      have htl : (c ++ [o]).tail.length ≤ 1000 := by
        rw [List.length_tail]
        simp only [List.length_append, List.length_singleton]
        omega
      rw [hstep, ih _ htl]
      have hlen : (c ++ [o]).tail.length = 1000 := by
        rw [List.length_tail]
        simp only [List.length_append, List.length_singleton]
        omega
      rw [hlen]
      have hre : c ++ o :: os = (c ++ [o]) ++ os := by
        rw [List.append_assoc, List.singleton_append]
      rw [hre]
      have h1 : ((c ++ [o]) ++ os).drop (c.length + (o :: os).length - 1000)
          = ((c ++ [o]) ++ os).drop (os.length + 1) := by
        have : c.length + (o :: os).length - 1000 = os.length + 1 := by
          simp only [List.length_cons]
          omega
        rw [this]
      rw [h1]
      have h2 : ((c ++ [o]) ++ os).drop (os.length + 1)
          = (((c ++ [o]) ++ os).drop 1).drop os.length := by
        rw [List.drop_drop, Nat.add_comm]
      have h3 : ((c ++ [o]) ++ os).drop 1 = (c ++ [o]).drop 1 ++ os := by
        apply List.drop_append_of_le_length
        simp only [List.length_append, List.length_singleton]
        omega
      rw [h2, h3, List.drop_one]
      have : 1000 + os.length - 1000 = os.length := by omega
      rw [this]
    · have hnot : ¬ (c ++ [o]).length > 1000 := by
        simp only [List.length_append, List.length_singleton]
        omega
      have hstep : cacheAppend c o = c ++ [o] := by
        unfold cacheAppend
        dsimp only
        rw [if_neg hnot]
      have hle : (c ++ [o]).length ≤ 1000 := by omega
      rw [hstep, ih _ hle]
      have hre : c ++ o :: os = (c ++ [o]) ++ os := by
        rw [List.append_assoc, List.singleton_append]
      rw [hre]
      have : (c ++ [o]).length + os.length - 1000
          = c.length + (o :: os).length - 1000 := by
        simp only [List.length_append, List.length_singleton, List.length_cons,
          List.length_nil]
        omega
      rw [this]

lemma runWatches_cache_foldl (inputs : List WatchInput) :
    ∀ s : State, (∀ i ∈ inputs, (jsonDumps i.ctx).isOk = true) →
      (runWatches inputs s).cache
        = (inputs.map fun i =>
            watchObservation s.alertThresholds i.user i.action i.ctx i.now).foldl
            cacheAppend s.cache := by
  induction inputs with
  | nil => intro s _; rfl
  | cons i is ih =>
    intro s hok
    rw [runWatches_cons, List.map_cons, List.foldl_cons]
    have hser := hok i (List.mem_cons_self i is)
    rcases hj : jsonDumps i.ctx with e | b
    · rw [hj] at hser
      simp [Except.isOk, Except.toBool] at hser
    · have hthr := watchAction_thresholds s i.user i.action i.ctx i.now
      have hc := watchAction_cache_ok s i.user i.action i.ctx i.now b hj
      rw [ih (watchAction s i.user i.action i.ctx i.now).2
          (fun j hjm => hok j (List.mem_cons_of_mem i hjm))]
      rw [hc, hthr]

/-- 1001 identical watch inputs with an empty (hence serializable)
context, at instants 0, 1, ..., 1000. -/
def manyInputs : List WatchInput :=
  (List.range 1001).map fun i => ⟨"u", "a", [], i⟩

/-- The 1001 observations those inputs create, in insertion order. -/
def manyObs : List Observation :=
  (List.range 1001).map fun i => watchObservation defaultThresholds "u" "a" [] i

/-- Claim C6: (1) after any sequence of watch calls from a fresh engine
the cache holds at most 1000 entries; (2) when an insert hits a cache
already at 1000, the oldest (head) entry is evicted and the new
observation appended at the back; (3) in particular 1001 inserts into an
empty cache leave exactly the last 1000 observations in order — the
first-inserted one is gone. -/
theorem cache_bounded_fifo :
    (∀ inputs : List WatchInput,
        (runWatches inputs initState).cache.length ≤ 1000)
    ∧ (∀ (s : State) (u a : String) (ctx : Ctx) (now : Time) (b : String),
        s.cache.length = 1000 → jsonDumps ctx = .ok b →
        (watchAction s u a ctx now).2.cache
          = s.cache.tail ++ [watchObservation s.alertThresholds u a ctx now])
    ∧ ((runWatches manyInputs initState).cache = manyObs.tail
        ∧ (runWatches manyInputs initState).cache.length = 1000
        ∧ watchObservation defaultThresholds "u" "a" [] 0
            ∉ (runWatches manyInputs initState).cache) := by
  have hser : ∀ i ∈ manyInputs, (jsonDumps i.ctx).isOk = true := by
    intro i hi
    unfold manyInputs at hi
    rw [List.mem_map] at hi
    obtain ⟨j, _, rfl⟩ := hi
    rfl
  have hlen : manyObs.length = 1001 := by
    unfold manyObs
    rw [List.length_map, List.length_range]
  have hcache : (runWatches manyInputs initState).cache = manyObs.tail := by
    rw [runWatches_cache_foldl manyInputs initState hser]
    have hmap : (manyInputs.map fun i =>
        watchObservation initState.alertThresholds i.user i.action i.ctx i.now)
        = manyObs := by
      unfold manyInputs manyObs
      rw [List.map_map]
      rfl
    rw [hmap]
    have h0 : (initState.cache : List Observation) = [] := rfl
    rw [h0]
    rw [foldl_cacheAppend_drop manyObs [] (by simp)]
    simp only [List.nil_append, List.length_nil, Nat.zero_add, hlen]
    rw [show 1001 - 1000 = 1 from rfl, List.drop_one]
  refine ⟨?_, ?_, hcache, ?_, ?_⟩
  · intro inputs
    exact runWatches_cache_le inputs initState (by simp [initState])
  · intro s u a ctx now b h1000 hj
    rw [watchAction_cache_ok s u a ctx now b hj]
    unfold cacheAppend
    dsimp only
    have hfull : (s.cache ++ [watchObservation s.alertThresholds u a ctx now]).length
        > 1000 := by
      simp only [List.length_append, List.length_singleton]
      omega
    rw [if_pos hfull, ← List.drop_one,
      List.drop_append_of_le_length (by omega), List.drop_one]
  · rw [hcache, List.length_tail, hlen]
  · rw [hcache]
    intro hmem
    unfold manyObs at hmem
    rw [List.range_succ_eq_map, List.map_cons, List.tail_cons, List.map_map,
      List.mem_map] at hmem
    obtain ⟨j, _, heq⟩ := hmem
    have ht := congrArg Observation.timestamp heq
    dsimp only [Function.comp] at ht
    rw [watchObservation_timestamp, watchObservation_timestamp] at ht
    exact Nat.succ_ne_zero j ht

/-- A full cache of 1000 identical entries, for the C6 witness. -/
def fullState : State :=
  { initState with
    cache := List.replicate 1000
      { timestamp := 0, user := "x", action := "y", context := []
      , risk_level := "LOW", alert_triggered := false, processed := false } }

/-- Witness for C6 at a concrete full cache: the eviction branch fires
and drops the head. -/
theorem cache_bounded_fifo_witness :
    (fullState.cache.length = 1000 ∧ jsonDumps ([] : Ctx) = .ok "\x7b\x7d")
    ∧ (watchAction fullState "u" "a" [] 5).2.cache
        = fullState.cache.tail
          ++ [watchObservation fullState.alertThresholds "u" "a" [] 5] :=
  ⟨⟨by rw [show fullState.cache = List.replicate 1000
        { timestamp := 0, user := "x", action := "y", context := []
        , risk_level := "LOW", alert_triggered := false, processed := false }
        from rfl, List.length_replicate], rfl⟩,
    cache_bounded_fifo.2.1 fullState "u" "a" [] 5 "\x7b\x7d"
      (by rw [show fullState.cache = List.replicate 1000
        { timestamp := 0, user := "x", action := "y", context := []
        , risk_level := "LOW", alert_triggered := false, processed := false }
        from rfl, List.length_replicate]) rfl⟩
